import Mathlib

/-!
# Verification of the food-delivery order workflow (`src/main.py`)

Shallow embedding of the order-lifecycle and courier-assignment logic of
`main.py`.  The SQLite tables become lists of records inside a `Store`
structure, SQL point lookups (`SELECT ... WHERE id = ?`) become
`List.find?`, SQL updates (`UPDATE ... WHERE id = ?`) become `List.map`
with an id test, and the `HTTPException` raises become `Except.error`
results.  Prices (SQL `REAL`) are modelled as exact rationals and Python
`int` quantities as `Int`.  `uuid.uuid4()` and `datetime.now()` are
externalised: the fresh order id is an explicit argument and timestamps
are not modelled (no claim mentions them).

Python truthiness is modelled faithfully: `if not restaurant_id:` in
`create_order` and `if row['courier_id']:` in `update_order_status` /
`assign_courier_to_order` test string truthiness, so the empty string
behaves like `None`; the embedding keeps that behaviour.

An `Except.error` result carries no successor store: this mirrors the
source, where every `raise HTTPException` in these handlers happens
before any SQL write is committed.
-/

/-- Order statuses, from `class OrderStatus(str, Enum)` in `main.py`. -/
inductive OrderStatus where
  | pending
  | confirmed
  | cooking
  | ready_for_delivery
  | on_way
  | delivered
  | cancelled
deriving DecidableEq, Repr

/-- Courier statuses, from `class CourierStatus(str, Enum)` in `main.py`. -/
inductive CourierStatus where
  | available
  | busy
  | offline
deriving DecidableEq, Repr

/-- A row of the `customers` table (only the key is used by the modelled
operations; the remaining columns are carried for fidelity). -/
structure Customer where
  id : String
  name : String
  email : String
  phone : String
  address : String
deriving DecidableEq, Repr

/-- A row of the `menu_items` table / the `MenuItem` pydantic model.
`price REAL` is modelled as an exact rational. -/
structure MenuItem where
  id : String
  restaurant_id : String
  name : String
  description : String
  price : ℚ
  category : String
  is_available : Bool
deriving DecidableEq, Repr

/-- A row of the `couriers` table / the `Courier` pydantic model. -/
structure Courier where
  id : String
  name : String
  phone : String
  vehicle_type : String
  status : CourierStatus
  current_location : Option String
deriving DecidableEq, Repr

/-- A cart line item, from `class CartItem(BaseModel)`: note that
`quantity : int` carries no positivity constraint in the source. -/
structure CartItem where
  menu_item_id : String
  quantity : Int
deriving DecidableEq, Repr

/-- One entry of an order's `items` snapshot list, built in `create_order`
as `{"menu_item": ..., "quantity": ..., "item_total": ...}`. -/
structure OrderItem where
  menu_item : MenuItem
  quantity : Int
  item_total : ℚ
deriving DecidableEq, Repr

/-- A row of the `orders` table / the `Order` pydantic model
(`created_at` is not modelled). -/
structure Order where
  id : String
  customer_id : String
  restaurant_id : String
  courier_id : Option String
  items : List OrderItem
  total_amount : ℚ
  status : OrderStatus
  delivery_address : String
  estimated_delivery_time : String
deriving DecidableEq, Repr

/-- The database state: one list per SQLite table.  A cart row is a
`(customer_id, line items)` pair; absence of a pair for a customer models
both a missing `carts` row and a row whose `items` column is NULL or
empty text (all of which `create_order` treats as "Cart is empty"). -/
structure Store where
  customers : List Customer
  menu_items : List MenuItem
  couriers : List Courier
  carts : List (String × List CartItem)
  orders : List Order
deriving DecidableEq, Repr

/-- The `HTTPException`s raised by the modelled handlers. -/
inductive ApiError where
  | cartEmpty
  | mixedRestaurants
  | noValidItems
  | orderNotFound
  | courierNotFound
  | courierNotAvailable
  | customerNotFound
  | menuItemNotFound
deriving DecidableEq, Repr

/-- The spec's error taxonomy (its section 7). -/
inductive ErrKind where
  | notFound
  | conflict
  | invalidState
  | duplicate
deriving DecidableEq, Repr

/-- Classification of each raised error into the spec's error kinds. -/
def ApiError.kind : ApiError → ErrKind
  | .cartEmpty => .invalidState
  | .noValidItems => .invalidState
  | .mixedRestaurants => .conflict
  | .courierNotAvailable => .conflict
  | .orderNotFound => .notFound
  | .courierNotFound => .notFound
  | .customerNotFound => .notFound
  | .menuItemNotFound => .notFound

/-- `SELECT items FROM carts WHERE customer_id = ?`. -/
def lookupCart (s : Store) (customerId : String) : Option (List CartItem) :=
  (s.carts.find? (fun p => p.1 = customerId)).map Prod.snd

/-- `SELECT * FROM menu_items WHERE id = ?` (no availability filter:
`create_order` resolves cart lines by id alone). -/
def lookupMenuItem (s : Store) (itemId : String) : Option MenuItem :=
  s.menu_items.find? (fun m => m.id = itemId)

/-- `UPDATE couriers SET status = ? WHERE id = ?`. -/
def setCourierStatus (cs : List Courier) (courierId : String)
    (st : CourierStatus) : List Courier :=
  cs.map (fun c => if c.id = courierId then { c with status := st } else c)

/-- The resolution loop of `create_order`, lines 485-504 of `main.py`:
walk the cart lines, skip lines whose menu item id does not resolve
(`if not menu_row: continue`), track the restaurant id of the first
resolved item — with Python truthiness, so a tracked empty string counts
as "not yet tracked" (`if not restaurant_id:`) — raise on a resolved item
whose restaurant differs from the tracked one, and accumulate the total
and the snapshot list. -/
def processCart (s : Store) : List CartItem → Option String → ℚ →
    List OrderItem → Except ApiError (Option String × ℚ × List OrderItem)
  | [], rid, total, acc => .ok (rid, total, acc)
  | ci :: rest, rid, total, acc =>
    match lookupMenuItem s ci.menu_item_id with
    | none => processCart s rest rid total acc
    | some m =>
      match rid with
      | none =>
        processCart s rest (some m.restaurant_id)
          (total + m.price * (ci.quantity : ℚ))
          (acc ++ [⟨m, ci.quantity, m.price * (ci.quantity : ℚ)⟩])
      | some r =>
        if r = "" then
          processCart s rest (some m.restaurant_id)
            (total + m.price * (ci.quantity : ℚ))
            (acc ++ [⟨m, ci.quantity, m.price * (ci.quantity : ℚ)⟩])
        else if m.restaurant_id = r then
          processCart s rest (some r)
            (total + m.price * (ci.quantity : ℚ))
            (acc ++ [⟨m, ci.quantity, m.price * (ci.quantity : ℚ)⟩])
        else
          .error .mixedRestaurants

/-- The write phase of `create_order`, lines 509-546 of `main.py`: select
the first courier with status `available` (`SELECT * FROM couriers WHERE
status = ? LIMIT 1`), build the order row with status `pending` and the
fixed delivery estimate, insert it, mark the selected courier `busy` if
one was found, and delete the customer's cart row. -/
def finishOrder (s : Store) (customerId deliveryAddress orderId : String)
    (restaurantId : String) (total : ℚ) (orderItems : List OrderItem) :
    Order × Store :=
  let avail := s.couriers.find? (fun c => c.status = CourierStatus.available)
  let order : Order :=
    { id := orderId
      customer_id := customerId
      restaurant_id := restaurantId
      courier_id := avail.map Courier.id
      items := orderItems
      total_amount := total
      status := OrderStatus.pending
      delivery_address := deliveryAddress
      estimated_delivery_time := "30-40 min" }
  let couriers :=
    match avail with
    | some c => setCourierStatus s.couriers c.id CourierStatus.busy
    | none => s.couriers
  (order,
   { s with
     orders := s.orders ++ [order]
     couriers := couriers
     carts := s.carts.filter (fun p => ¬ p.1 = customerId) })

/-- `POST /orders` (`create_order`, lines 466-552 of `main.py`): load the
cart (absent/NULL/empty-text `items` raise "Cart is empty"), run the
resolution loop, raise "No valid items in cart" when the tracked
restaurant id is still falsy (`if not restaurant_id:` — `None` or `""`),
otherwise perform the writes.  The fresh `uuid.uuid4()` is the explicit
`orderId` argument. -/
def createOrder (s : Store) (customerId deliveryAddress orderId : String) :
    Except ApiError (Order × Store) :=
  match lookupCart s customerId with
  | none => .error .cartEmpty
  | some cartItems =>
    match processCart s cartItems none 0 [] with
    | .error e => .error e
    | .ok (rid, total, orderItems) =>
      match rid with
      | none => .error .noValidItems
      | some r =>
        if r = "" then .error .noValidItems
        else .ok (finishOrder s customerId deliveryAddress orderId r total orderItems)

/-- `PUT /orders/{order_id}/status` (`update_order_status`, lines 595-622
of `main.py`): 404 if the order is missing, otherwise overwrite the
status; when the new status is `delivered` and the stored `courier_id` is
truthy (non-NULL and non-empty — `if ... and row['courier_id']:`), set
that courier's status to `available`. -/
def updateOrderStatus (s : Store) (orderId : String) (newStatus : OrderStatus) :
    Except ApiError (Order × Store) :=
  match s.orders.find? (fun o => o.id = orderId) with
  | none => .error .orderNotFound
  | some row =>
    let orders :=
      s.orders.map (fun o => if o.id = orderId then { o with status := newStatus } else o)
    let couriers :=
      if newStatus = OrderStatus.delivered then
        match row.courier_id with
        | some cid =>
          if cid = "" then s.couriers
          else setCourierStatus s.couriers cid CourierStatus.available
        | none => s.couriers
      else s.couriers
    .ok ({ row with status := newStatus },
         { s with orders := orders, couriers := couriers })

/-- `PUT /orders/{order_id}/assign-courier` (`assign_courier_to_order`,
lines 624-663 of `main.py`): 404 on missing order or courier, 400 when
the target courier is not `available`; otherwise release the previously
assigned courier when the stored `courier_id` is truthy
(`if order_row['courier_id']:`), attach the new courier to the order and
mark it `busy`. -/
def assignCourier (s : Store) (orderId courierId : String) :
    Except ApiError (Order × Store) :=
  match s.orders.find? (fun o => o.id = orderId) with
  | none => .error .orderNotFound
  | some orderRow =>
    match s.couriers.find? (fun c => c.id = courierId) with
    | none => .error .courierNotFound
    | some courier =>
      if courier.status ≠ CourierStatus.available then
        .error .courierNotAvailable
      else
        let released :=
          match orderRow.courier_id with
          | some prev =>
            if prev = "" then s.couriers
            else setCourierStatus s.couriers prev CourierStatus.available
          | none => s.couriers
        let orders :=
          s.orders.map (fun o =>
            if o.id = orderId then { o with courier_id := some courierId } else o)
        let couriers := setCourierStatus released courierId CourierStatus.busy
        .ok ({ orderRow with courier_id := some courierId },
             { s with orders := orders, couriers := couriers })

/-- `POST /customers/{customer_id}/cart` (`add_to_cart`, lines 382-419 of
`main.py`): 404 on missing customer, 404 when no menu item matches
`id = ? AND is_available = 1`, otherwise append the line item (quantity
unchecked) to the customer's cart, creating the cart row if absent. -/
def addToCart (s : Store) (customerId : String) (ci : CartItem) :
    Except ApiError (List CartItem × Store) :=
  match s.customers.find? (fun c => c.id = customerId) with
  | none => .error .customerNotFound
  | some _ =>
    match s.menu_items.find? (fun m => m.id = ci.menu_item_id ∧ m.is_available = true) with
    | none => .error .menuItemNotFound
    | some _ =>
      let current := (lookupCart s customerId).getD []
      let updated := current ++ [ci]
      let carts :=
        if (s.carts.find? (fun p => p.1 = customerId)).isSome then
          s.carts.map (fun p => if p.1 = customerId then (p.1, updated) else p)
        else
          s.carts ++ [(customerId, updated)]
      .ok (updated, { s with carts := carts })

/-- The cart lines that resolve to an existing menu item, paired with
their quantities (the lines `create_order` does not skip). -/
def resolvedPairs (s : Store) (items : List CartItem) : List (MenuItem × Int) :=
  items.filterMap (fun ci => (lookupMenuItem s ci.menu_item_id).map (fun m => (m, ci.quantity)))

/-- The snapshot entries the resolution loop builds, one per resolved line. -/
def resolvedSnapshots (s : Store) (items : List CartItem) : List OrderItem :=
  items.filterMap (fun ci =>
    (lookupMenuItem s ci.menu_item_id).map
      (fun m => ⟨m, ci.quantity, m.price * (ci.quantity : ℚ)⟩))

/-- Sum of (unit price × quantity) over the resolved cart lines. -/
def resolvedTotal (s : Store) (items : List CartItem) : ℚ :=
  ((resolvedPairs s items).map (fun p => p.1.price * (p.2 : ℚ))).sum

/-! ## Lemmas about the resolution loop -/

theorem resolvedPairs_nil (s : Store) : resolvedPairs s [] = [] := rfl

theorem resolvedPairs_cons_none (s : Store) (ci : CartItem) (rest : List CartItem)
    (h : lookupMenuItem s ci.menu_item_id = none) :
    resolvedPairs s (ci :: rest) = resolvedPairs s rest := by
  simp [resolvedPairs, List.filterMap_cons, h]

theorem resolvedPairs_cons_some (s : Store) (ci : CartItem) (rest : List CartItem)
    (m : MenuItem) (h : lookupMenuItem s ci.menu_item_id = some m) :
    resolvedPairs s (ci :: rest) = (m, ci.quantity) :: resolvedPairs s rest := by
  simp [resolvedPairs, List.filterMap_cons, h]

theorem resolvedSnapshots_cons_none (s : Store) (ci : CartItem) (rest : List CartItem)
    (h : lookupMenuItem s ci.menu_item_id = none) :
    resolvedSnapshots s (ci :: rest) = resolvedSnapshots s rest := by
  simp [resolvedSnapshots, List.filterMap_cons, h]

theorem resolvedSnapshots_cons_some (s : Store) (ci : CartItem) (rest : List CartItem)
    (m : MenuItem) (h : lookupMenuItem s ci.menu_item_id = some m) :
    resolvedSnapshots s (ci :: rest) =
      ⟨m, ci.quantity, m.price * (ci.quantity : ℚ)⟩ :: resolvedSnapshots s rest := by
  simp [resolvedSnapshots, List.filterMap_cons, h]

theorem resolvedTotal_cons_none (s : Store) (ci : CartItem) (rest : List CartItem)
    (h : lookupMenuItem s ci.menu_item_id = none) :
    resolvedTotal s (ci :: rest) = resolvedTotal s rest := by
  simp [resolvedTotal, resolvedPairs_cons_none s ci rest h]

theorem resolvedTotal_cons_some (s : Store) (ci : CartItem) (rest : List CartItem)
    (m : MenuItem) (h : lookupMenuItem s ci.menu_item_id = some m) :
    resolvedTotal s (ci :: rest) =
      m.price * (ci.quantity : ℚ) + resolvedTotal s rest := by
  simp [resolvedTotal, resolvedPairs_cons_some s ci rest m h]

theorem resolvedSnapshots_nil (s : Store) : resolvedSnapshots s [] = [] := rfl

theorem resolvedTotal_nil (s : Store) : resolvedTotal s [] = 0 := rfl

/-- Whatever the resolution loop returns on success, the returned total is
the initial accumulator plus the sum of (price × quantity) over resolved
lines, and the returned snapshot list is the initial accumulator followed
by one snapshot per resolved line. -/
theorem processCart_ok_spec (s : Store) (items : List CartItem) :
    ∀ rid total acc rid2 total2 acc2,
    processCart s items rid total acc = .ok (rid2, total2, acc2) →
    total2 = total + resolvedTotal s items ∧
      acc2 = acc ++ resolvedSnapshots s items := by
  induction items with
  | nil =>
    intro rid total acc rid2 total2 acc2 h
    simp only [processCart, Except.ok.injEq, Prod.mk.injEq] at h
    rw [resolvedTotal_nil, resolvedSnapshots_nil, ← h.2.1, ← h.2.2]
    simp
  | cons ci rest ih =>
    intro rid total acc rid2 total2 acc2 h
    cases hm : lookupMenuItem s ci.menu_item_id with
    | none =>
      simp only [processCart, hm] at h
      have := ih rid total acc rid2 total2 acc2 h
      rw [resolvedTotal_cons_none s ci rest hm, resolvedSnapshots_cons_none s ci rest hm]
      exact this
    | some m =>
      rw [resolvedTotal_cons_some s ci rest m hm, resolvedSnapshots_cons_some s ci rest m hm]
      cases rid with
      | none =>
        simp only [processCart, hm] at h
        have := ih _ _ _ _ _ _ h
        constructor
        · rw [this.1]; ring
        · rw [this.2]; simp
      | some r =>
        simp only [processCart, hm] at h
        by_cases hr : r = ""
        · rw [if_pos hr] at h
          have := ih _ _ _ _ _ _ h
          constructor
          · rw [this.1]; ring
          · rw [this.2]; simp
        · rw [if_neg hr] at h
          by_cases hmr : m.restaurant_id = r
          · rw [if_pos hmr] at h
            have := ih _ _ _ _ _ _ h
            constructor
            · rw [this.1]; ring
            · rw [this.2]; simp
          · rw [if_neg hmr] at h
            exact absurd h (by simp)

/-- The only error the resolution loop itself can raise is the
mixed-restaurants conflict. -/
theorem processCart_error_spec (s : Store) (items : List CartItem) :
    ∀ rid total acc e,
    processCart s items rid total acc = .error e → e = .mixedRestaurants := by
  induction items with
  | nil =>
    intro rid total acc e h
    simp [processCart] at h
  | cons ci rest ih =>
    intro rid total acc e h
    cases hm : lookupMenuItem s ci.menu_item_id with
    | none =>
      simp only [processCart, hm] at h
      exact ih _ _ _ _ h
    | some m =>
      cases rid with
      | none =>
        simp only [processCart, hm] at h
        exact ih _ _ _ _ h
      | some r =>
        simp only [processCart, hm] at h
        by_cases hr : r = ""
        · rw [if_pos hr] at h; exact ih _ _ _ _ h
        · rw [if_neg hr] at h
          by_cases hmr : m.restaurant_id = r
          · rw [if_pos hmr] at h; exact ih _ _ _ _ h
          · rw [if_neg hmr] at h
            simp only [Except.error.injEq] at h
            exact h.symm

/-- A cart none of whose lines resolves leaves the loop state untouched. -/
theorem processCart_skip_all (s : Store) (items : List CartItem)
    (hall : ∀ ci ∈ items, lookupMenuItem s ci.menu_item_id = none) :
    ∀ rid total acc, processCart s items rid total acc = .ok (rid, total, acc) := by
  induction items with
  | nil => intro rid total acc; rfl
  | cons ci rest ih =>
    intro rid total acc
    have hm : lookupMenuItem s ci.menu_item_id = none := hall ci (by simp)
    simp only [processCart, hm]
    exact ih (fun x hx => hall x (by simp [hx])) rid total acc

/-- Once the tracked restaurant id is a truthy string, the loop succeeds
only if every remaining resolved line belongs to that restaurant. -/
theorem processCart_tracked (s : Store) (items : List CartItem) :
    ∀ r total acc out, r ≠ "" →
    processCart s items (some r) total acc = .ok out →
    ∀ x ∈ resolvedPairs s items, x.1.restaurant_id = r := by
  induction items with
  | nil => intro r total acc out _ _ x hx; simp [resolvedPairs] at hx
  | cons ci rest ih =>
    intro r total acc out hr h x hx
    cases hm : lookupMenuItem s ci.menu_item_id with
    | none =>
      simp only [processCart, hm] at h
      rw [resolvedPairs_cons_none s ci rest hm] at hx
      exact ih r _ _ out hr h x hx
    | some m =>
      simp only [processCart, hm] at h
      rw [if_neg hr] at h
      by_cases hmr : m.restaurant_id = r
      · rw [if_pos hmr] at h
        rw [resolvedPairs_cons_some s ci rest m hm] at hx
        rcases List.mem_cons.mp hx with hx | hx
        · rw [hx]; exact hmr
        · exact ih r _ _ out hr h x hx
      · rw [if_neg hmr] at h
        exact absurd h (by simp)

/-- Starting from an untracked restaurant id, if every resolved line has
a nonempty restaurant id, success of the loop forces all resolved lines
to share one restaurant id. -/
theorem processCart_single (s : Store) (items : List CartItem) :
    ∀ total acc out,
    (∀ x ∈ resolvedPairs s items, x.1.restaurant_id ≠ "") →
    processCart s items none total acc = .ok out →
    ∀ x ∈ resolvedPairs s items, ∀ y ∈ resolvedPairs s items,
      x.1.restaurant_id = y.1.restaurant_id := by
  induction items with
  | nil => intro total acc out _ _ x hx; simp [resolvedPairs] at hx
  | cons ci rest ih =>
    intro total acc out hall h x hx y hy
    cases hm : lookupMenuItem s ci.menu_item_id with
    | none =>
      simp only [processCart, hm] at h
      rw [resolvedPairs_cons_none s ci rest hm] at hx hy
      refine ih _ _ out (fun z hz => ?_) h x hx y hy
      exact hall z (by rwa [resolvedPairs_cons_none s ci rest hm])
    | some m =>
      simp only [processCart, hm] at h
      have hmne : m.restaurant_id ≠ "" := by
        have hmem : (m, ci.quantity) ∈ resolvedPairs s (ci :: rest) := by
          rw [resolvedPairs_cons_some s ci rest m hm]; simp
        exact hall _ hmem
      have htracked := processCart_tracked s rest m.restaurant_id _ _ out hmne h
      rw [resolvedPairs_cons_some s ci rest m hm] at hx hy
      rcases List.mem_cons.mp hx with hx | hx <;>
        rcases List.mem_cons.mp hy with hy | hy
      · rw [hx, hy]
      · rw [hx]; exact (htracked y hy).symm
      · rw [hy]; exact htracked x hx
      · rw [htracked x hx, htracked y hy]

/-! ## Lemmas about the write phase -/

/-- Inverting a successful `createOrder`: the cart row existed, the loop
succeeded with a truthy restaurant id, and the result is the write phase
applied to the loop's output. -/
theorem createOrder_ok_inv (s : Store) (cid addr oid : String) (o : Order)
    (s2 : Store) (h : createOrder s cid addr oid = .ok (o, s2)) :
    ∃ cartItems r total oi,
      lookupCart s cid = some cartItems ∧
      processCart s cartItems none 0 [] = .ok (some r, total, oi) ∧
      r ≠ "" ∧
      (o, s2) = finishOrder s cid addr oid r total oi := by
  cases hc : lookupCart s cid with
  | none => simp [createOrder, hc] at h
  | some cartItems =>
    cases hp : processCart s cartItems none 0 [] with
    | error e => simp [createOrder, hc, hp] at h
    | ok out =>
      obtain ⟨rid, total, oi⟩ := out
      cases rid with
      | none => simp [createOrder, hc, hp] at h
      | some r =>
        by_cases hr : r = ""
        · simp [createOrder, hc, hp, hr] at h
        · refine ⟨cartItems, r, total, oi, rfl, hp, hr, ?_⟩
          simp only [createOrder, hc, hp, if_neg hr] at h
          exact (Except.ok.inj h).symm

theorem finishOrder_order_total (s : Store) (cid addr oid r : String)
    (total : ℚ) (oi : List OrderItem) :
    (finishOrder s cid addr oid r total oi).1.total_amount = total := rfl

theorem finishOrder_order_items (s : Store) (cid addr oid r : String)
    (total : ℚ) (oi : List OrderItem) :
    (finishOrder s cid addr oid r total oi).1.items = oi := rfl

theorem finishOrder_order_courier (s : Store) (cid addr oid r : String)
    (total : ℚ) (oi : List OrderItem) :
    (finishOrder s cid addr oid r total oi).1.courier_id =
      (s.couriers.find? (fun c => c.status = CourierStatus.available)).map Courier.id := rfl

theorem finishOrder_store_couriers (s : Store) (cid addr oid r : String)
    (total : ℚ) (oi : List OrderItem) :
    (finishOrder s cid addr oid r total oi).2.couriers =
      match s.couriers.find? (fun c => c.status = CourierStatus.available) with
      | some c => setCourierStatus s.couriers c.id CourierStatus.busy
      | none => s.couriers := rfl

theorem finishOrder_store_carts (s : Store) (cid addr oid r : String)
    (total : ℚ) (oi : List OrderItem) :
    (finishOrder s cid addr oid r total oi).2.carts =
      s.carts.filter (fun p => ¬ p.1 = cid) := rfl

/-- A courier row targeted by `setCourierStatus` ends with the written
status. -/
theorem setCourierStatus_mem_self (cs : List Courier) (courierId : String)
    (st : CourierStatus) (k : Courier)
    (hk : k ∈ setCourierStatus cs courierId st) (hid : k.id = courierId) :
    k.status = st := by
  simp only [setCourierStatus, List.mem_map] at hk
  obtain ⟨c, _, hck⟩ := hk
  by_cases hc : c.id = courierId
  · rw [if_pos hc] at hck
    rw [← hck]
  · rw [if_neg hc] at hck
    rw [← hck] at hid
    exact absurd hid hc

/-- A courier row not targeted by `setCourierStatus` is passed through
unchanged. -/
theorem setCourierStatus_mem_other (cs : List Courier) (courierId : String)
    (st : CourierStatus) (k : Courier)
    (hk : k ∈ setCourierStatus cs courierId st) (hid : k.id ≠ courierId) :
    k ∈ cs := by
  simp only [setCourierStatus, List.mem_map] at hk
  obtain ⟨c, hc, hck⟩ := hk
  by_cases hcc : c.id = courierId
  · rw [if_pos hcc] at hck
    rw [← hck] at hid
    exact absurd hcc hid
  · rw [if_neg hcc] at hck
    rw [← hck]
    exact hc

/-! ## Claim C1 -/

/-- C1: for a cart with at least one resolvable line item, all resolved
items from a single restaurant, a successful `createOrder` yields an
order whose `total_amount` is the sum of (menu item unit price × line
quantity) over the resolved lines; unresolvable lines contribute nothing
(they appear neither in the total nor in the snapshot list) and cause no
error. -/
theorem claim_C1_total_is_sum (s : Store) (cid addr oid : String)
    (o : Order) (s2 : Store) (cartItems : List CartItem) (r : String)
    (hcart : lookupCart s cid = some cartItems)
    (hres : resolvedPairs s cartItems ≠ [])
    (hsingle : ∀ x ∈ resolvedPairs s cartItems, x.1.restaurant_id = r)
    (hsucc : createOrder s cid addr oid = .ok (o, s2)) :
    o.total_amount = resolvedTotal s cartItems ∧
      o.items = resolvedSnapshots s cartItems := by
  obtain ⟨ci2, r2, total, oi, hc2, hp, hr2, hfin⟩ :=
    createOrder_ok_inv s cid addr oid o s2 hsucc
  rw [hcart] at hc2
  obtain rfl : cartItems = ci2 := Option.some.inj hc2
  have hspec := processCart_ok_spec s cartItems none 0 [] (some r2) total oi hp
  have ho : o = (finishOrder s cid addr oid r2 total oi).1 :=
    congrArg Prod.fst hfin
  constructor
  · rw [ho, finishOrder_order_total, hspec.1, zero_add]
  · rw [ho, finishOrder_order_items, hspec.2, List.nil_append]

def wM1 : MenuItem :=
  { id := "m1", restaurant_id := "r1", name := "Margherita", description := "d",
    price := 3, category := "Pizza", is_available := true }

def wCart1 : List CartItem := [⟨"m1", 2⟩, ⟨"zz", 1⟩]

def wS1 : Store :=
  { customers := [], menu_items := [wM1], couriers := [],
    carts := [("c1", wCart1)], orders := [] }

def wO1 : Order :=
  { id := "o1", customer_id := "c1", restaurant_id := "r1", courier_id := none,
    items := [⟨wM1, 2, 6⟩], total_amount := 6, status := .pending,
    delivery_address := "a", estimated_delivery_time := "30-40 min" }

def wS1b : Store :=
  { customers := [], menu_items := [wM1], couriers := [], carts := [],
    orders := [wO1] }

/-- Witness for C1: a concrete cart with one resolvable line (price 3,
quantity 2) and one unresolvable line; the order is created with total 6
and only the resolved snapshot, the unresolvable line raising no error. -/
theorem claim_C1_witness :
    createOrder wS1 "c1" "a" "o1" = .ok (wO1, wS1b) ∧
      wO1.total_amount = 6 ∧ wO1.items = [⟨wM1, 2, 6⟩] := by
  have hsucc : createOrder wS1 "c1" "a" "o1" = .ok (wO1, wS1b) := by
    simp [createOrder, lookupCart, lookupMenuItem, processCart, finishOrder,
      wS1, wM1, wCart1, wO1, wS1b, List.find?] <;> norm_num
  have h := claim_C1_total_is_sum wS1 "c1" "a" "o1" wO1 wS1b wCart1 "r1"
    (by simp [lookupCart, wS1, wCart1, List.find?])
    (by decide)
    (by decide)
    hsucc
  refine ⟨hsucc, ?_, ?_⟩
  · rw [h.1]
    simp [resolvedTotal, resolvedPairs, lookupMenuItem, wS1, wM1, wCart1,
      List.find?, List.filterMap] <;> norm_num
  · rw [h.2]
    simp [resolvedSnapshots, lookupMenuItem, wS1, wM1, wCart1,
      List.find?, List.filterMap] <;> norm_num

/-! ## Claim C3 -/

/-- C3: `createOrder` for a customer whose cart is absent (or whose cart
row's `items` column is falsy — the source's "empty cart" condition)
fails with the "Cart is empty" error, and for a present cart none of
whose lines resolves to an existing menu item it fails with the
"No valid items in cart" error; both errors are of the spec's
InvalidState kind, and an error result carries no successor store (the
source raises before any write). -/
theorem claim_C3_empty_or_unresolvable (s : Store) (cid addr oid : String) :
    (lookupCart s cid = none →
      createOrder s cid addr oid = .error .cartEmpty ∧
        ApiError.cartEmpty.kind = .invalidState) ∧
    (∀ items, lookupCart s cid = some items →
      (∀ ci ∈ items, lookupMenuItem s ci.menu_item_id = none) →
      createOrder s cid addr oid = .error .noValidItems ∧
        ApiError.noValidItems.kind = .invalidState) := by
  constructor
  · intro h
    exact ⟨by simp [createOrder, h], rfl⟩
  · intro items hc hall
    have hp := processCart_skip_all s items hall none 0 []
    exact ⟨by simp [createOrder, hc, hp], rfl⟩

def w3S : Store :=
  { customers := [], menu_items := [wM1], couriers := [],
    carts := [("c2", [⟨"zz", 1⟩])], orders := [] }

/-- Witness for C3: customer `c1` has no cart row ("Cart is empty") and
customer `c2` has a cart whose only line references a missing menu item
("No valid items in cart"). -/
theorem claim_C3_witness :
    createOrder w3S "c1" "a" "o1" = .error .cartEmpty ∧
      createOrder w3S "c2" "a" "o2" = .error .noValidItems :=
  ⟨((claim_C3_empty_or_unresolvable w3S "c1" "a" "o1").1 (by decide)).1,
   ((claim_C3_empty_or_unresolvable w3S "c2" "a" "o2").2 [⟨"zz", 1⟩]
      (by decide) (by decide)).1⟩

/-! ## Claim C8 -/

/-- C8: after every successful `createOrder`, the customer's cart row is
gone (the write phase executes `DELETE FROM carts WHERE customer_id = ?`). -/
theorem claim_C8_cart_cleared (s : Store) (cid addr oid : String)
    (o : Order) (s2 : Store)
    (hsucc : createOrder s cid addr oid = .ok (o, s2)) :
    lookupCart s2 cid = none := by
  obtain ⟨ci2, r, total, oi, _, _, _, hfin⟩ :=
    createOrder_ok_inv s cid addr oid o s2 hsucc
  have hs2 : s2 = (finishOrder s cid addr oid r total oi).2 :=
    congrArg Prod.snd hfin
  rw [hs2]
  simp only [lookupCart, finishOrder_store_carts]
  rw [Option.map_eq_none', List.find?_eq_none]
  intro p hp
  have := (List.mem_filter.mp hp).2
  simpa using this

/-- Witness for C8: on the concrete C1 store the cart row of `c1` is
absent after order creation. -/
theorem claim_C8_witness : lookupCart wS1b "c1" = none := by
  have hsucc : createOrder wS1 "c1" "a" "o1" = .ok (wO1, wS1b) := by
    simp [createOrder, lookupCart, lookupMenuItem, processCart, finishOrder,
      wS1, wM1, wCart1, wO1, wS1b, List.find?] <;> norm_num
  exact claim_C8_cart_cleared wS1 "c1" "a" "o1" wO1 wS1b hsucc

/-! ## Claim C10 -/

/-- C10: the resolution step of `createOrder` looks menu items up by id
only (`SELECT * FROM menu_items WHERE id = ?`, no `is_available`
filter): a cart line whose menu item exists but is unavailable is still
snapshotted into the order's items, and the order total is still the sum
over all resolved lines, available or not. -/
theorem claim_C10_availability_ignored (s : Store) (cid addr oid : String)
    (o : Order) (s2 : Store) (cartItems : List CartItem) (ci : CartItem)
    (m : MenuItem)
    (hcart : lookupCart s cid = some cartItems)
    (hci : ci ∈ cartItems)
    (hm : lookupMenuItem s ci.menu_item_id = some m)
    (hav : m.is_available = false)
    (hsucc : createOrder s cid addr oid = .ok (o, s2)) :
    (⟨m, ci.quantity, m.price * (ci.quantity : ℚ)⟩ : OrderItem) ∈ o.items ∧
      o.total_amount = resolvedTotal s cartItems := by
  obtain ⟨ci2, r, total, oi, hc2, hp, hr, hfin⟩ :=
    createOrder_ok_inv s cid addr oid o s2 hsucc
  rw [hcart] at hc2
  obtain rfl : cartItems = ci2 := Option.some.inj hc2
  have hspec := processCart_ok_spec s cartItems none 0 [] (some r) total oi hp
  have ho : o = (finishOrder s cid addr oid r total oi).1 :=
    congrArg Prod.fst hfin
  constructor
  · rw [ho, finishOrder_order_items, hspec.2, List.nil_append]
    simp only [resolvedSnapshots, List.mem_filterMap]
    exact ⟨ci, hci, by rw [hm]; rfl⟩
  · rw [ho, finishOrder_order_total, hspec.1, zero_add]

def wM3 : MenuItem :=
  { id := "m3", restaurant_id := "r1", name := "X", description := "d",
    price := 7, category := "Pizza", is_available := false }

def w10S : Store :=
  { customers := [], menu_items := [wM3], couriers := [],
    carts := [("c1", [⟨"m3", 2⟩])], orders := [] }

def w10O : Order :=
  { id := "o1", customer_id := "c1", restaurant_id := "r1", courier_id := none,
    items := [⟨wM3, 2, 14⟩], total_amount := 14, status := .pending,
    delivery_address := "a", estimated_delivery_time := "30-40 min" }

def w10Sb : Store :=
  { customers := [], menu_items := [wM3], couriers := [], carts := [],
    orders := [w10O] }

/-- Witness for C10: a cart whose only line references an unavailable
menu item (price 7, quantity 2) still yields an order containing its
snapshot, with total 14. -/
theorem claim_C10_witness :
    (⟨wM3, 2, 14⟩ : OrderItem) ∈ w10O.items ∧ w10O.total_amount = 14 := by
  have hsucc : createOrder w10S "c1" "a" "o1" = .ok (w10O, w10Sb) := by
    simp [createOrder, lookupCart, lookupMenuItem, processCart, finishOrder,
      w10S, wM3, w10O, w10Sb, List.find?] <;> norm_num
  have h := claim_C10_availability_ignored w10S "c1" "a" "o1" w10O w10Sb
    [⟨"m3", 2⟩] ⟨"m3", 2⟩ wM3
    (by decide) (by decide) (by decide) (by decide) hsucc
  refine ⟨?_, h.2.trans ?_⟩
  · have hmem := h.1
    norm_num [wM3] at hmem
    exact hmem
  · simp [resolvedTotal, resolvedPairs, lookupMenuItem, w10S, wM3,
      List.find?, List.filterMap] <;> norm_num

/-! ## Claim C4 -/

/-- C4: on every successful `createOrder`, if a courier with status
`available` exists, the first one found is attached to the order
(`courier_id`) and its stored status becomes `busy`; if none exists the
order's `courier_id` is unset and the couriers table is untouched. -/
theorem claim_C4_courier_assignment (s : Store) (cid addr oid : String)
    (o : Order) (s2 : Store)
    (hsucc : createOrder s cid addr oid = .ok (o, s2)) :
    (∀ c, s.couriers.find? (fun c => c.status = CourierStatus.available) = some c →
      o.courier_id = some c.id ∧
        ∀ k ∈ s2.couriers, k.id = c.id → k.status = CourierStatus.busy) ∧
    (s.couriers.find? (fun c => c.status = CourierStatus.available) = none →
      o.courier_id = none ∧ s2.couriers = s.couriers) := by
  obtain ⟨ci2, r, total, oi, _, _, _, hfin⟩ :=
    createOrder_ok_inv s cid addr oid o s2 hsucc
  have ho : o = (finishOrder s cid addr oid r total oi).1 :=
    congrArg Prod.fst hfin
  have hs2 : s2 = (finishOrder s cid addr oid r total oi).2 :=
    congrArg Prod.snd hfin
  constructor
  · intro c hc
    constructor
    · rw [ho, finishOrder_order_courier, hc]
      rfl
    · intro k hk hkid
      rw [hs2, finishOrder_store_couriers, hc] at hk
      exact setCourierStatus_mem_self s.couriers c.id CourierStatus.busy k hk hkid
  · intro hc
    constructor
    · rw [ho, finishOrder_order_courier, hc]
      rfl
    · rw [hs2, finishOrder_store_couriers, hc]

def wK0 : Courier :=
  { id := "k0", name := "n", phone := "p", vehicle_type := "bike",
    status := .busy, current_location := none }

def wK1 : Courier :=
  { id := "k1", name := "n", phone := "p", vehicle_type := "bike",
    status := .available, current_location := none }

def wK9 : Courier :=
  { id := "k9", name := "n", phone := "p", vehicle_type := "bike",
    status := .available, current_location := none }

def w4S : Store :=
  { customers := [], menu_items := [wM1], couriers := [wK0, wK1, wK9],
    carts := [("c1", wCart1)], orders := [] }

def w4O : Order :=
  { id := "o1", customer_id := "c1", restaurant_id := "r1",
    courier_id := some "k1", items := [⟨wM1, 2, 6⟩], total_amount := 6,
    status := .pending, delivery_address := "a",
    estimated_delivery_time := "30-40 min" }

def w4Sb : Store :=
  { customers := [], menu_items := [wM1],
    couriers := [wK0, { wK1 with status := .busy }, wK9], carts := [],
    orders := [w4O] }

/-- Witness for C4: with couriers `[k0 busy, k1 available, k9 available]`
the created order is assigned `k1` (the first available one) and `k1`
ends `busy` while the others keep their statuses. -/
theorem claim_C4_witness :
    w4O.courier_id = some "k1" ∧
      ∀ k ∈ w4Sb.couriers, k.id = "k1" → k.status = CourierStatus.busy := by
  have hsucc : createOrder w4S "c1" "a" "o1" = .ok (w4O, w4Sb) := by
    simp [createOrder, lookupCart, lookupMenuItem, processCart, finishOrder,
      setCourierStatus, w4S, wM1, wCart1, w4O, w4Sb, wK0, wK1, wK9,
      List.find?] <;> norm_num
  have h := (claim_C4_courier_assignment w4S "c1" "a" "o1" w4O w4Sb hsucc).1
    wK1 (by decide)
  exact h

/-! ## Claim C7 -/

/-- C7: `assignCourier` on an existing order and an existing courier
whose status is not `available` fails with the "Courier is not
available" Conflict error; the raise happens before any write, so the
error result carries no successor store and nothing is modified. -/
theorem claim_C7_courier_busy_conflict (s : Store) (oid cid : String)
    (orderRow : Order) (courier : Courier)
    (horder : s.orders.find? (fun o => o.id = oid) = some orderRow)
    (hcour : s.couriers.find? (fun c => c.id = cid) = some courier)
    (hna : courier.status ≠ CourierStatus.available) :
    assignCourier s oid cid = .error .courierNotAvailable ∧
      ApiError.courierNotAvailable.kind = .conflict := by
  constructor
  · simp only [assignCourier, horder, hcour]
    rw [if_pos hna]
  · rfl

def w7O : Order :=
  { id := "o1", customer_id := "c1", restaurant_id := "r1",
    courier_id := none, items := [], total_amount := 0, status := .pending,
    delivery_address := "a", estimated_delivery_time := "30-40 min" }

def w7S : Store :=
  { customers := [], menu_items := [], couriers := [wK0], carts := [],
    orders := [w7O] }

/-- Witness for C7: assigning the busy courier `k0` to order `o1` fails
with the Conflict error. -/
theorem claim_C7_witness :
    assignCourier w7S "o1" "k0" = .error .courierNotAvailable :=
  (claim_C7_courier_busy_conflict w7S "o1" "k0" w7O wK0
    (by decide) (by decide) (by decide)).1

/-! ## Claim C5 -/

def c5K : Courier :=
  { id := "", name := "n", phone := "p", vehicle_type := "bike",
    status := .busy, current_location := none }

def c5O : Order :=
  { id := "o1", customer_id := "c1", restaurant_id := "r1",
    courier_id := some "", items := [], total_amount := 0, status := .on_way,
    delivery_address := "a", estimated_delivery_time := "30-40 min" }

def c5S : Store :=
  { customers := [], menu_items := [], couriers := [c5K], carts := [],
    orders := [c5O] }

def c5O2 : Order := { c5O with status := .delivered }

def c5S2 : Store := { c5S with orders := [c5O2] }

/-- Counterexample to C5 as stated: order `o1` has an assigned courier
(the existing courier whose id is the empty string, currently `busy`),
yet `updateOrderStatus` to `delivered` leaves that courier `busy`: the
source guards the release with `if ... and row['courier_id']:`, and the
empty-string id is falsy in Python, so no release happens. -/
theorem claim_C5_counterexample :
    updateOrderStatus c5S "o1" OrderStatus.delivered = .ok (c5O2, c5S2) ∧
      c5O.courier_id = some "" ∧
      c5K.id = "" ∧
      c5S2.couriers = [c5K] ∧
      c5K.status = CourierStatus.busy :=
  ⟨rfl, rfl, rfl, rfl, rfl⟩

/-- C5 (amended): `updateOrderStatus` on an existing order sets the
requested status; when the new status is `delivered` and the order's
assigned courier id is truthy (present and nonempty), that courier's
status becomes `available`; for any new status other than `delivered`
(including `cancelled`) the couriers table is untouched. -/
theorem claim_C5_delivered_releases_courier (s : Store) (oid : String)
    (ns : OrderStatus) (row : Order)
    (hrow : s.orders.find? (fun o => o.id = oid) = some row) :
    ∃ o2 s2, updateOrderStatus s oid ns = .ok (o2, s2) ∧ o2.status = ns ∧
      (ns = OrderStatus.delivered → ∀ cid, row.courier_id = some cid →
        cid ≠ "" → ∀ k ∈ s2.couriers, k.id = cid →
          k.status = CourierStatus.available) ∧
      (ns ≠ OrderStatus.delivered → s2.couriers = s.couriers) := by
  simp only [updateOrderStatus, hrow]
  refine ⟨_, _, rfl, rfl, ?_, ?_⟩
  · intro hns cid hcid hne k hk hkid
    rw [if_pos hns, hcid] at hk
    simp only [if_neg hne] at hk
    exact setCourierStatus_mem_self s.couriers cid CourierStatus.available k hk hkid
  · intro hns
    simp only [if_neg hns]

def w5O : Order :=
  { id := "o1", customer_id := "c1", restaurant_id := "r1",
    courier_id := some "k1", items := [], total_amount := 0,
    status := .on_way, delivery_address := "a",
    estimated_delivery_time := "30-40 min" }

def w5S : Store :=
  { customers := [], menu_items := [],
    couriers := [{ wK1 with status := .busy }], carts := [],
    orders := [w5O] }

def w5O2 : Order := { w5O with status := .delivered }

def w5S2 : Store := { w5S with orders := [w5O2], couriers := [wK1] }

/-- Witness for the amended C5: delivering order `o1`, whose assigned
courier `k1` (nonempty id) is busy, flips `k1` back to `available`. -/
theorem claim_C5_witness :
    updateOrderStatus w5S "o1" OrderStatus.delivered = .ok (w5O2, w5S2) ∧
      wK1 ∈ w5S2.couriers ∧ wK1.id = "k1" ∧
      wK1.status = CourierStatus.available := by
  obtain ⟨o2, s2, h1, h2, h3, h4⟩ :=
    claim_C5_delivered_releases_courier w5S "o1" OrderStatus.delivered w5O
      (by decide)
  have hcomp : updateOrderStatus w5S "o1" OrderStatus.delivered =
      .ok (w5O2, w5S2) := rfl
  rw [hcomp] at h1
  have hpair := Except.ok.inj h1
  have hs2 : w5S2 = s2 := congrArg Prod.snd hpair
  refine ⟨hcomp, by decide, rfl, ?_⟩
  have hmem : wK1 ∈ s2.couriers := by rw [← hs2]; decide
  exact h3 rfl "k1" rfl (by decide) wK1 hmem rfl

/-! ## Claim C6 -/

def c6K : Courier :=
  { id := "", name := "n", phone := "p", vehicle_type := "bike",
    status := .busy, current_location := none }

def c6O : Order :=
  { id := "o1", customer_id := "c1", restaurant_id := "r1",
    courier_id := some "", items := [], total_amount := 0, status := .pending,
    delivery_address := "a", estimated_delivery_time := "30-40 min" }

def c6S : Store :=
  { customers := [], menu_items := [], couriers := [c6K, wK1], carts := [],
    orders := [c6O] }

def c6O2 : Order := { c6O with courier_id := some "k1" }

def wK1b : Courier := { wK1 with status := CourierStatus.busy }

def c6S2 : Store :=
  { c6S with orders := [c6O2], couriers := [c6K, wK1b] }

/-- Counterexample to C6 as stated: order `o1` is currently assigned the
existing busy courier whose id is the empty string; assigning the
available courier `k1` succeeds, but the previously assigned courier
(different from `k1`) is NOT released to `available` — it stays `busy`,
because `if order_row['courier_id']:` treats the empty-string id as
falsy and skips the release. -/
theorem claim_C6_counterexample :
    assignCourier c6S "o1" "k1" = .ok (c6O2, c6S2) ∧
      c6O.courier_id = some "" ∧
      ("" : String) ≠ "k1" ∧
      c6S2.couriers = [c6K, wK1b] ∧
      c6K.id = "" ∧
      c6K.status = CourierStatus.busy :=
  ⟨rfl, rfl, by decide, rfl, rfl, rfl⟩

/-- C6 (amended): `assignCourier` on an existing order and an existing
`available` courier succeeds; the order ends up attached to the new
courier, the new courier's status becomes `busy`, and the previously
assigned courier — when its id is present, nonempty, and different from
the new courier's — is released back to `available`. -/
theorem claim_C6_reassignment (s : Store) (oid cid : String)
    (orderRow : Order) (courier : Courier)
    (horder : s.orders.find? (fun o => o.id = oid) = some orderRow)
    (hcour : s.couriers.find? (fun c => c.id = cid) = some courier)
    (hav : courier.status = CourierStatus.available) :
    ∃ o2 s2, assignCourier s oid cid = .ok (o2, s2) ∧
      o2.courier_id = some cid ∧
      (∀ k ∈ s2.couriers, k.id = cid → k.status = CourierStatus.busy) ∧
      (∀ prev, orderRow.courier_id = some prev → prev ≠ "" → prev ≠ cid →
        ∀ k ∈ s2.couriers, k.id = prev →
          k.status = CourierStatus.available) ∧
      (∀ o ∈ s2.orders, o.id = oid → o.courier_id = some cid) := by
  simp only [assignCourier, horder, hcour]
  rw [if_neg (by simp [hav])]
  refine ⟨_, _, rfl, rfl, ?_, ?_, ?_⟩
  · intro k hk hkid
    exact setCourierStatus_mem_self _ cid CourierStatus.busy k hk hkid
  · intro prev hprev hne hnecid k hk hkid
    have hk2 := setCourierStatus_mem_other _ cid CourierStatus.busy k hk
      (by rw [hkid]; exact hnecid)
    rw [hprev] at hk2
    simp only [if_neg hne] at hk2
    exact setCourierStatus_mem_self s.couriers prev CourierStatus.available k hk2 hkid
  · intro o ho hoid
    obtain ⟨o0, ho0, hmap⟩ := List.mem_map.mp ho
    by_cases h0 : o0.id = oid
    · rw [if_pos h0] at hmap
      rw [← hmap]
    · rw [if_neg h0] at hmap
      rw [← hmap] at hoid
      exact absurd hoid h0

def wK7 : Courier :=
  { id := "k7", name := "n", phone := "p", vehicle_type := "bike",
    status := .busy, current_location := none }

def w6O : Order :=
  { id := "o1", customer_id := "c1", restaurant_id := "r1",
    courier_id := some "k7", items := [], total_amount := 0,
    status := .pending, delivery_address := "a",
    estimated_delivery_time := "30-40 min" }

def w6S : Store :=
  { customers := [], menu_items := [], couriers := [wK7, wK1], carts := [],
    orders := [w6O] }

def w6O2 : Order := { w6O with courier_id := some "k1" }

def wK7a : Courier := { wK7 with status := CourierStatus.available }

def w6S2 : Store :=
  { w6S with orders := [w6O2], couriers := [wK7a, wK1b] }

/-- Witness for the amended C6: reassigning order `o1` from busy courier
`k7` to available courier `k1` releases `k7` to `available`, marks `k1`
`busy`, and attaches `k1` to the order. -/
theorem claim_C6_witness :
    assignCourier w6S "o1" "k1" = .ok (w6O2, w6S2) ∧
      w6O2.courier_id = some "k1" ∧
      wK7a.status = CourierStatus.available ∧
      wK1b.status = CourierStatus.busy := by
  obtain ⟨o2, s2, h1, h2, h3, h4, h5⟩ :=
    claim_C6_reassignment w6S "o1" "k1" w6O wK1 (by decide) (by decide) rfl
  have hcomp : assignCourier w6S "o1" "k1" = .ok (w6O2, w6S2) := rfl
  rw [hcomp] at h1
  have hpair := Except.ok.inj h1
  have hs2 : w6S2 = s2 := congrArg Prod.snd hpair
  refine ⟨hcomp, rfl, ?_, ?_⟩
  · have hmem : wK7a ∈ s2.couriers := by rw [← hs2]; decide
    exact h4 "k7" rfl (by decide) (by decide) wK7a hmem rfl
  · have hmem : wK1b ∈ s2.couriers := by rw [← hs2]; decide
    exact h3 wK1b hmem rfl

/-! ## Claim C2 -/

def cMA : MenuItem :=
  { id := "ma", restaurant_id := "", name := "A", description := "d",
    price := 1, category := "c", is_available := true }

def cMB : MenuItem :=
  { id := "mb", restaurant_id := "r1", name := "B", description := "d",
    price := 2, category := "c", is_available := true }

def c2Cart : List CartItem := [⟨"ma", 1⟩, ⟨"mb", 1⟩]

def c2S : Store :=
  { customers := [], menu_items := [cMA, cMB], couriers := [],
    carts := [("c1", c2Cart)], orders := [] }

def c2O : Order :=
  { id := "o1", customer_id := "c1", restaurant_id := "r1",
    courier_id := none, items := [⟨cMA, 1, 1⟩, ⟨cMB, 1, 2⟩],
    total_amount := 3, status := .pending, delivery_address := "a",
    estimated_delivery_time := "30-40 min" }

def c2S2 : Store :=
  { customers := [], menu_items := [cMA, cMB], couriers := [], carts := [],
    orders := [c2O] }

/-- Counterexample to C2 as stated: the cart's two resolved lines
reference menu items of two different restaurants (ids `""` and `"r1"`),
yet `createOrder` succeeds instead of failing with the mixed-restaurants
Conflict: `if not restaurant_id:` treats the tracked empty-string id as
"not yet tracked", so the first item's restaurant is forgotten and both
items are billed into a single order.  (Both items are also included in
the total, 1 + 2 = 3.) -/
theorem claim_C2_counterexample :
    (resolvedPairs c2S c2Cart).map (fun p => p.1.restaurant_id) = ["", "r1"] ∧
      ("" : String) ≠ "r1" ∧
      createOrder c2S "c1" "a" "o1" = .ok (c2O, c2S2) := by
  refine ⟨by decide, by decide, ?_⟩
  simp [createOrder, lookupCart, lookupMenuItem, processCart, finishOrder,
    c2S, cMA, cMB, c2Cart, c2O, c2S2, List.find?] <;> norm_num

/-- C2 (amended): for a cart whose resolved line items reference menu
items of two different restaurants, provided every resolved item's
restaurant id is a nonempty string, `createOrder` fails with the
mixed-restaurants error (the spec's Conflict kind); the raise happens
before any write, so the error result carries no successor store and the
cart is untouched. -/
theorem claim_C2_mixed_restaurants (s : Store) (cid addr oid : String)
    (items : List CartItem) (x y : MenuItem × Int)
    (hcart : lookupCart s cid = some items)
    (hall : ∀ p ∈ resolvedPairs s items, p.1.restaurant_id ≠ "")
    (hx : x ∈ resolvedPairs s items) (hy : y ∈ resolvedPairs s items)
    (hne : x.1.restaurant_id ≠ y.1.restaurant_id) :
    createOrder s cid addr oid = .error .mixedRestaurants ∧
      ApiError.mixedRestaurants.kind = .conflict := by
  refine ⟨?_, rfl⟩
  cases hp : processCart s items none 0 [] with
  | ok out =>
    exact absurd (processCart_single s items 0 [] out hall hp x hx y hy) hne
  | error e =>
    have he := processCart_error_spec s items none 0 [] e hp
    simp [createOrder, hcart, hp, he]

def wMB : MenuItem :=
  { id := "mb", restaurant_id := "r2", name := "Roll", description := "d",
    price := 5, category := "Sushi", is_available := true }

def w2S : Store :=
  { customers := [], menu_items := [wM1, wMB], couriers := [],
    carts := [("c1", [⟨"m1", 1⟩, ⟨"mb", 1⟩])], orders := [] }

/-- Witness for the amended C2: a cart mixing menu items of restaurants
`r1` and `r2` (both nonempty ids) is rejected with the
mixed-restaurants error. -/
theorem claim_C2_witness :
    createOrder w2S "c1" "a" "o1" = .error .mixedRestaurants :=
  (claim_C2_mixed_restaurants w2S "c1" "a" "o1" [⟨"m1", 1⟩, ⟨"mb", 1⟩]
    (wM1, 1) (wMB, 1)
    (by decide) (by decide) (by decide) (by decide) (by decide)).1

/-! ## Claim C9 -/

/-- Updating a keyed row in place (`UPDATE carts SET items = ? WHERE
customer_id = ?`) commutes with the keyed lookup. -/
theorem find?_fst_map_upsert (l : List (String × List CartItem))
    (cid : String) (v : List CartItem) :
    (l.map (fun p => if p.1 = cid then (p.1, v) else p)).find?
        (fun p => p.1 = cid) =
      (l.find? (fun p => p.1 = cid)).map (fun p => (p.1, v)) := by
  induction l with
  | nil => rfl
  | cons p rest ih =>
    by_cases hp : p.1 = cid
    · simp [List.find?_cons, hp]
    · simp only [List.map_cons, if_neg hp]
      rw [List.find?_cons_of_neg _ (by simpa using hp),
        List.find?_cons_of_neg _ (by simpa using hp)]
      exact ih

/-- Appending a fresh keyed row (`INSERT INTO carts ...`) makes the keyed
lookup find it when no earlier row matches. -/
theorem find?_fst_append_single (l : List (String × List CartItem))
    (cid : String) (v : List CartItem)
    (h : l.find? (fun p => p.1 = cid) = none) :
    (l ++ [(cid, v)]).find? (fun p => p.1 = cid) = some (cid, v) := by
  induction l with
  | nil => simp [List.find?_cons]
  | cons p rest ih =>
    by_cases hp : p.1 = cid
    · rw [List.find?_cons_of_pos _ (by simpa using hp)] at h
      exact Option.noConfusion h
    · rw [List.find?_cons_of_neg _ (by simpa using hp)] at h
      rw [List.cons_append, List.find?_cons_of_neg _ (by simpa using hp)]
      exact ih h

def c9C : Customer :=
  { id := "cu1", name := "n", email := "e", phone := "p", address := "a" }

def c9S : Store :=
  { customers := [c9C], menu_items := [wM1], couriers := [], carts := [],
    orders := [] }

def c9S2 : Store := { c9S with carts := [("cu1", [⟨"m1", 0⟩])] }

/-- Counterexample to C9 as stated: `add_to_cart` accepts a line item
with quantity 0 (the source never validates `quantity`), so the store
ends up holding a cart line item with quantity < 1, refuting the claimed
"quantity ≥ 1" invariant and its establishment by add-to-cart. -/
theorem claim_C9_counterexample :
    addToCart c9S "cu1" ⟨"m1", 0⟩ = .ok ([⟨"m1", 0⟩], c9S2) ∧
      lookupCart c9S2 "cu1" = some [⟨"m1", 0⟩] ∧
      ¬ ((1 : Int) ≤ 0) :=
  ⟨rfl, rfl, by decide⟩

/-- C9 (amended): a successful `add_to_cart` call appends exactly the
given line item to the customer's cart, and the referenced menu item
exists and is available in the pre-state (the source checks
`id = ? AND is_available = 1`); the line's quantity is not validated
(any integer, zero or negative included, is accepted). -/
theorem claim_C9_add_to_cart_checks (s : Store) (cid : String)
    (ci : CartItem) (items2 : List CartItem) (s2 : Store)
    (hsucc : addToCart s cid ci = .ok (items2, s2)) :
    (∃ m, s.menu_items.find?
        (fun m => m.id = ci.menu_item_id ∧ m.is_available = true) = some m ∧
      m.id = ci.menu_item_id ∧ m.is_available = true) ∧
      items2 = (lookupCart s cid).getD [] ++ [ci] ∧
      lookupCart s2 cid = some items2 := by
  unfold addToCart at hsucc
  split at hsucc
  · exact Except.noConfusion hsucc
  split at hsucc
  · exact Except.noConfusion hsucc
  next m hmi =>
    have hprops := List.find?_some hmi
    simp only [decide_eq_true_eq] at hprops
    rw [Except.ok.injEq, Prod.mk.injEq] at hsucc
    obtain ⟨hitems, hs2⟩ := hsucc
    refine ⟨⟨m, hmi, hprops.1, hprops.2⟩, hitems.symm, ?_⟩
    rw [← hs2, ← hitems]
    cases hrow : s.carts.find? (fun p => p.1 = cid) with
    | none =>
      simp only [lookupCart, hrow]
      rw [if_neg (by simp [hrow])]
      rw [find?_fst_append_single s.carts cid _ (by simpa [hrow] using hrow)]
      simp
    | some row =>
      simp only [lookupCart, hrow]
      rw [if_pos (by simp [hrow])]
      rw [find?_fst_map_upsert s.carts cid _, hrow]
      simp

/-- Witness for the amended C9: adding `m1` with quantity 0 for customer
`cu1` succeeds, the referenced menu item is available, and the cart of
`cu1` afterwards holds exactly that line. -/
theorem claim_C9_witness :
    c9S.menu_items.find? (fun m => m.id = "m1" ∧ m.is_available = true) =
        some wM1 ∧
      lookupCart c9S2 "cu1" = some [⟨"m1", 0⟩] := by
  have hsucc : addToCart c9S "cu1" ⟨"m1", 0⟩ = .ok ([⟨"m1", 0⟩], c9S2) := rfl
  have h := claim_C9_add_to_cart_checks c9S "cu1" ⟨"m1", 0⟩ [⟨"m1", 0⟩] c9S2 hsucc
  exact ⟨by decide, h.2.2⟩
